import Mathlib

/-!
Shallow embedding of the routerify pattern-set dispatcher core
(`src/router/mod.rs`, `src/middleware/pre.rs`), together with models of the
small pieces of the crate that the dispatcher calls into.

Modelling conventions:
* A compiled regex is modelled as a decidable predicate on path strings
  (`Regex := String → Bool`); the external `regex` crate's `RegexSet::matches`
  is modelled by its documented contract: it reports, in ascending index
  order, exactly the indices of the member patterns that individually match.
* Asynchronous handlers are modelled as pure functions: within one `process`
  call the source awaits each handler before the next step, so the pipeline
  is a sequential composition.
* Rust panics (`expect`) are modelled by the dedicated `Outcome.panicked`
  constructor, kept distinct from a recoverable `Outcome.err`.
* The crate error type (`src/error.rs`, not available here) is modelled from
  the spec: a generic message-carrying error (`Error::new(msg)` ↦ `RErr.new`)
  plus context chaining that wraps a cause (`.context(msg)` ↦ `RErr.wrap`).
-/

namespace Routerify

/-- A compiled regex, modelled extensionally as a predicate on paths. -/
abbrev Regex := String → Bool

/-- Default regex used only as the out-of-range default for list lookups. -/
def falseRegex : Regex := fun _ => false

/-- An HTTP response; the dispatcher treats the body type abstractly, so a
plain string stands for the whole response value. -/
abbrev Response := String

/-- An HTTP request: method, raw path and an abstract rest (body/headers). -/
structure Request where
  method : String
  path : String
  body : String
deriving DecidableEq, Repr

/-- Modelled from the spec: the crate error type lives in `src/error.rs`,
which is not among the provided sources. Per the spec's error design, an
error is either constructed directly from a message (the generic
`Error::new`) or wraps a cause with a context message (`PreMiddlewareError` /
`PostMiddlewareError` "wraps a handler's own error"; `.context` in the
source). -/
inductive RErr where
  | new : String → RErr
  | wrap : String → RErr → RErr
deriving DecidableEq, Repr

/-- Result of a dispatcher step: a value, a recoverable error value returned
to the caller, or a Rust panic (`expect` failure) carrying the panic
message. -/
inductive Outcome (α : Type) where
  | ok : α → Outcome α
  | err : RErr → Outcome α
  | panicked : String → Outcome α
deriving DecidableEq, Repr

/-- Context message used by `Router::process` around a failing pre middleware. -/
def preCtxMsg : String := "One of the pre middlewares couldn't process the request"

/-- Context message used by `Router::process` around a failing route handler. -/
def routeCtxMsg : String := "One of the routes couldn't process the request"

/-- Context message used by `Router::process` around a failing post middleware. -/
def postCtxMsg : String := "One of the post middlewares couldn't process the response"

/-- Context message used by `Router::process` around a path-decoding failure. -/
def decodeCtxMsg : String := "Couldn't percent decode request path"

/-- The fixed message of the error returned when no matched route accepts the
request (source line 143 of `src/router/mod.rs`). -/
def noRouteMsg : String := "No handlers added to handle non-existent routes. Tips: Please add an '.any' route at the bottom to handle any routes."

/-- Panic message of the `expect` in `Router::match_regex_set`. -/
def regexSetPanicMsg : String := "The 'regex_set' field in Router is not initialized"

/-- Panic message of the `expect` in the entry `process` methods when the
handler slot was moved out during mounting (`src/middleware/pre.rs`). -/
def consumedPanicMsg : String := "A router can not be used after mounting into another router"

/-- Panic message modelling Rust's out-of-bounds indexing panic. -/
def oobPanicMsg : String := "index out of bounds"

/-- A pre middleware (`src/middleware/pre.rs`): a path, its compiled regex and
an optional handler slot (the option allows mounting to move the handler
out). The handler transforms the request or fails with the user error. -/
structure PreMiddleware where
  path : String
  regex : Regex
  handler : Option (Request → Except String Request)

/-- `PreMiddleware::is_match` (`src/middleware/pre.rs`). -/
def PreMiddleware.is_match (m : PreMiddleware) (targetPath : String) : Bool :=
  m.regex targetPath

/-- `PreMiddleware::process` (`src/middleware/pre.rs`): panics through
`expect` when the handler slot is empty; otherwise runs the handler and
converts its user error into the crate error (`.wrap()`). -/
def PreMiddleware.process (m : PreMiddleware) (req : Request) : Outcome Request :=
  match m.handler with
  | none => .panicked consumedPanicMsg
  | some h =>
    match h req with
    | .error s => .err (RErr.new s)
    | .ok r => .ok r

/-- Modelled from the spec: `src/route.rs` is not among the provided sources.
Per the spec, a route entry binds a compiled pattern to a handler and
"Route entries additionally carry a set of accepted HTTP methods
(empty/absent set ≡ match any method)"; the handler slot is optional so
mounting can move it out, like the middlewares. The handler receives the
target path (for path-parameter capture) and the request. -/
structure Route where
  path : String
  regex : Regex
  methods : List String
  handler : Option (String → Request → Except String Response)

/-- Modelled from the spec: `Route::is_match_method` from the missing
`src/route.rs`; a route accepts a method when its method set contains it, an
empty set accepting any method. -/
def Route.is_match_method (route : Route) (method : String) : Bool :=
  route.methods.isEmpty || route.methods.contains method

/-- Modelled from the spec: `Route::process` from the missing `src/route.rs`.
It panics when the handler slot was moved out, otherwise invokes the handler
with the target path (from which path parameters are captured) and the
request, converting the user error into the crate error. -/
def Route.process (route : Route) (targetPath : String) (req : Request) : Outcome Response :=
  match route.handler with
  | none => .panicked consumedPanicMsg
  | some h =>
    match h targetPath req with
    | .error s => .err (RErr.new s)
    | .ok resp => .ok resp

/-- Modelled from the spec: `src/middleware/post.rs` is not among the
provided sources; per the spec a post-phase entry is symmetric to
`PreMiddleware`, transforming the response instead of the request. -/
structure PostMiddleware where
  path : String
  regex : Regex
  handler : Option (Response → Except String Response)

/-- Modelled from the spec: `PostMiddleware::process`, symmetric to
`PreMiddleware::process`. -/
def PostMiddleware.process (m : PostMiddleware) (resp : Response) : Outcome Response :=
  match m.handler with
  | none => .panicked consumedPanicMsg
  | some h =>
    match h resp with
    | .error s => .err (RErr.new s)
    | .ok r => .ok r

/-- The router (`src/router/mod.rs`): three phase lists, an optional error
handler (an infallible async function from the error to a response) and the
lazily installed regex set. -/
structure Router where
  pre_middlewares : List PreMiddleware
  routes : List Route
  post_middlewares : List PostMiddleware
  err_handler : Option (RErr → Response)
  regex_set : Option (List Regex)

/-- The `regex` crate's `RegexSet::matches`, modelled by its contract: the
ascending list of indices of member patterns that match the text. -/
def regexSetMatches (rs : List Regex) (text : String) : List Nat :=
  (List.range rs.length).filter (fun i => rs.getD i falseRegex text)

/-- `Router::init_regex_set` (`src/router/mod.rs`): installs the regex set
built from the concatenation pre-middlewares ++ routes ++ post-middlewares.
(The source returns `Result` because `RegexSet::new` re-parses pattern
strings; with regexes modelled extensionally, construction cannot fail.) -/
def Router.init_regex_set (router : Router) : Router :=
  { router with
    regex_set := some (router.pre_middlewares.map PreMiddleware.regex
      ++ router.routes.map Route.regex
      ++ router.post_middlewares.map PostMiddleware.regex) }

/-- The index-partitioning loop of `Router::match_regex_set`
(`src/router/mod.rs` lines 173-186): global match indices are split by range
into pre / route / post local indices, preserving order. -/
def partitionIdxs (preLen routesLen postLen : Nat) : List Nat → List Nat × List Nat × List Nat
  | [] => ([], [], [])
  | idx :: rest =>
    let acc := partitionIdxs preLen routesLen postLen rest
    if idx < preLen then
      (idx :: acc.1, acc.2.1, acc.2.2)
    else if idx < preLen + routesLen then
      (acc.1, (idx - preLen) :: acc.2.1, acc.2.2)
    else if idx < preLen + routesLen + postLen then
      (acc.1, acc.2.1, (idx - preLen - routesLen) :: acc.2.2)
    else
      (acc.1, acc.2.1, acc.2.2)

/-- `Router::match_regex_set` (`src/router/mod.rs`): panics through `expect`
when the regex set has not been initialized, otherwise queries the set once
and partitions the global indices by phase ranges. -/
def Router.match_regex_set (router : Router) (targetPath : String) :
    Outcome (List Nat × List Nat × List Nat) :=
  match router.regex_set with
  | none => .panicked regexSetPanicMsg
  | some rs =>
    .ok (partitionIdxs router.pre_middlewares.length router.routes.length
      router.post_middlewares.length (regexSetMatches rs targetPath))

/-- The pre-middleware loop of `Router::process`: runs the middlewares at the
given indices in order, threading the transformed request; the first failure
is wrapped with the pre context and returned. -/
def runPreMiddlewares (pres : List PreMiddleware) (req : Request) : List Nat → Outcome Request
  | [] => .ok req
  | idx :: rest =>
    match pres.get? idx with
    | none => .panicked oobPanicMsg
    | some m =>
      match PreMiddleware.process m req with
      | .panicked s => .panicked s
      | .err e => .err (RErr.wrap preCtxMsg e)
      | .ok r => runPreMiddlewares pres r rest

/-- The route loop of `Router::process`: scans matched route indices in
order, invokes the first route accepting the method, wraps its failure with
the route context and either recovers through the error handler or returns
the wrapped error; `ok none` means no matched route accepted the method. -/
def runRoutes (routes : List Route) (errH : Option (RErr → Response))
    (targetPath : String) (req : Request) : List Nat → Outcome (Option Response)
  | [] => .ok none
  | idx :: rest =>
    match routes.get? idx with
    | none => .panicked oobPanicMsg
    | some route =>
      if route.is_match_method req.method then
        match route.process targetPath req with
        | .panicked s => .panicked s
        | .err e =>
          match errH with
          | some eh => .ok (some (eh (RErr.wrap routeCtxMsg e)))
          | none => .err (RErr.wrap routeCtxMsg e)
        | .ok resp => .ok (some resp)
      else
        runRoutes routes errH targetPath req rest

/-- The post-middleware loop of `Router::process`: runs the post middlewares
at the given indices in order, threading the transformed response. -/
def runPostMiddlewares (posts : List PostMiddleware) (resp : Response) : List Nat → Outcome Response
  | [] => .ok resp
  | idx :: rest =>
    match posts.get? idx with
    | none => .panicked oobPanicMsg
    | some m =>
      match PostMiddleware.process m resp with
      | .panicked s => .panicked s
      | .err e => .err (RErr.wrap postCtxMsg e)
      | .ok r => runPostMiddlewares posts r rest

/-- `Router::process` (`src/router/mod.rs`): decode the path, query the
matcher once on the decoded path, run the matched pre middlewares, select
and run the first matched route accepting the (transformed) method, fall
back to the error handler or return the no-route error, then run the matched
post middlewares. `decode` is the external percent-decoding function
(`helpers::percent_decode_request_path`). -/
def Router.process (router : Router) (decode : String → Except RErr String)
    (req : Request) : Outcome Response :=
  match decode req.path with
  | .error e => .err (RErr.wrap decodeCtxMsg e)
  | .ok targetPath =>
    match router.match_regex_set targetPath with
    | .panicked s => .panicked s
    | .err e => .err e
    | .ok (preIdxs, routeIdxs, postIdxs) =>
      match runPreMiddlewares router.pre_middlewares req preIdxs with
      | .panicked s => .panicked s
      | .err e => .err e
      | .ok req1 =>
        match runRoutes router.routes router.err_handler targetPath req1 routeIdxs with
        | .panicked s => .panicked s
        | .err e => .err e
        | .ok none => .err (RErr.new noRouteMsg)
        | .ok (some resp) => runPostMiddlewares router.post_middlewares resp postIdxs

/-- Invocation of one eligible route inside the route loop, including the
error-handler fallback; `Router.process` runs exactly this on the first
matched route whose method set accepts the request. -/
def invokeRoute (route : Route) (errH : Option (RErr → Response))
    (targetPath : String) (req : Request) : Outcome Response :=
  match route.process targetPath req with
  | .panicked s => .panicked s
  | .err e =>
    match errH with
    | some eh => .ok (eh (RErr.wrap routeCtxMsg e))
    | none => .err (RErr.wrap routeCtxMsg e)
  | .ok resp => .ok resp

/-- Which route the loop of `Router::process` selects: the first route among
the matched indices whose method set accepts the given method. The route
phase consults the request only through its method here. -/
def selectedRoute (routes : List Route) (method : String) : List Nat → Option Route
  | [] => none
  | idx :: rest =>
    match routes.get? idx with
    | none => none
    | some route =>
      if route.is_match_method method then some route
      else selectedRoute routes method rest

/-! Concrete fixtures used by witnesses and counterexamples. -/

/-- The identity percent-decoder: every raw path decodes to itself. -/
def decodeId : String → Except RErr String := fun s => Except.ok s

/-- A GET request for the path `/about`. -/
def reqGetAbout : Request := { method := "GET", path := "/about", body := "b" }

/-- A POST request for the path `/about`. -/
def reqPostAbout : Request := { method := "POST", path := "/about", body := "b" }

/-- The compiled regex of the exact-match pattern for `/about`. -/
def aboutRegex : Regex := fun p => p == "/about"

/-- A GET route on `/about` whose handler succeeds. -/
def routeAbout : Route :=
  { path := "/about", regex := aboutRegex, methods := ["GET"],
    handler := some (fun _ _ => Except.ok "about-page") }

/-- A GET route on `/about` whose handler fails. -/
def routeFail : Route :=
  { path := "/about", regex := aboutRegex, methods := ["GET"],
    handler := some (fun _ _ => Except.error "route boom") }

/-- A pre middleware on `/about` whose handler fails. -/
def preFail : PreMiddleware :=
  { path := "/about", regex := aboutRegex,
    handler := some (fun _ => Except.error "pre boom") }

/-- A pre middleware on `/about` that rewrites the request path. -/
def preRewrite : PreMiddleware :=
  { path := "/about", regex := aboutRegex,
    handler := some (fun r => Except.ok { r with path := "/elsewhere" }) }

/-- A consumed pre middleware: its handler slot was moved out by mounting. -/
def consumedPre : PreMiddleware :=
  { path := "/", regex := fun _ => true, handler := none }

/-- An error handler producing a fixed recovery response. -/
def recoveryHandler : RErr → Response := fun _ => "recovered"

/-- A built router with the single route `routeAbout`. -/
def routerAbout : Router :=
  { pre_middlewares := [], routes := [routeAbout], post_middlewares := [],
    err_handler := none, regex_set := some [aboutRegex] }

/-- A built router with no entries at all. -/
def routerEmpty : Router :=
  { pre_middlewares := [], routes := [], post_middlewares := [],
    err_handler := none, regex_set := some [] }

/-- A router whose regex set was never initialized. -/
def routerUnbuilt : Router :=
  { pre_middlewares := [], routes := [routeAbout], post_middlewares := [],
    err_handler := none, regex_set := none }

/-- A built router whose matched pre middleware fails. -/
def routerPreFail : Router :=
  { pre_middlewares := [preFail], routes := [routeAbout], post_middlewares := [],
    err_handler := none, regex_set := some [aboutRegex, aboutRegex] }

/-- A built router whose route fails, with an error handler installed. -/
def routerRouteFail : Router :=
  { pre_middlewares := [], routes := [routeFail], post_middlewares := [],
    err_handler := some recoveryHandler, regex_set := some [aboutRegex] }

/-- A built router whose pre middleware rewrites the request path away from
the route pattern. -/
def routerRewrite : Router :=
  { pre_middlewares := [preRewrite], routes := [routeAbout], post_middlewares := [],
    err_handler := none, regex_set := some [aboutRegex, aboutRegex] }

/-- The request `reqGetAbout` after `preRewrite` transformed it. -/
def reqRewritten : Request := { method := "GET", path := "/elsewhere", body := "b" }

/-! Helper lemmas about the pipeline loops. -/

/-- Running the pre loop on a concatenation first runs the head part, then
threads its transformed request through the tail part. -/
theorem runPre_append (pres : List PreMiddleware) (req : Request) (l1 l2 : List Nat) :
    runPreMiddlewares pres req (l1 ++ l2) =
      match runPreMiddlewares pres req l1 with
      | .panicked s => .panicked s
      | .err e => .err e
      | .ok r => runPreMiddlewares pres r l2 := by
  induction l1 generalizing req with
  | nil => rfl
  | cons idx rest ih =>
    simp only [List.cons_append, runPreMiddlewares]
    cases hget : pres.get? idx with
    | none => rfl
    | some m =>
      simp only []
      cases hp : PreMiddleware.process m req with
      | panicked s => rfl
      | err e => rfl
      | ok r => exact ih r

/-- Matched route indices resolving to routes that reject the method are
skipped by the route loop. -/
theorem runRoutes_skip (routes : List Route) (errH : Option (RErr → Response))
    (tp : String) (req : Request) (l1 l2 : List Nat)
    (h : ∀ i ∈ l1, ∃ r, routes.get? i = some r ∧ r.is_match_method req.method = false) :
    runRoutes routes errH tp req (l1 ++ l2) = runRoutes routes errH tp req l2 := by
  induction l1 with
  | nil => rfl
  | cons idx rest ih =>
    obtain ⟨r, hget, hm⟩ := h idx (List.mem_cons_self idx rest)
    simp only [List.cons_append, runRoutes, hget, hm]
    simp only [Bool.false_eq_true, if_false]
    exact ih (fun i hi => h i (List.mem_cons_of_mem idx hi))

/-- When the head of the index list resolves to a route accepting the
method, the route loop invokes exactly that route (with the error-handler
fallback) and ignores the tail. -/
theorem runRoutes_hit (routes : List Route) (errH : Option (RErr → Response))
    (tp : String) (req : Request) (k : Nat) (l2 : List Nat) (route : Route)
    (hget : routes.get? k = some route)
    (hm : route.is_match_method req.method = true) :
    runRoutes routes errH tp req (k :: l2) =
      match invokeRoute route errH tp req with
      | .panicked s => .panicked s
      | .err e => .err e
      | .ok resp => .ok (some resp) := by
  simp only [runRoutes, hget, hm, if_true, invokeRoute]
  cases route.process tp req with
  | panicked s => rfl
  | ok resp => rfl
  | err e => cases errH with
    | none => rfl
    | some eh => rfl

/-- The route loop refines select-then-invoke: on in-bounds indices it
invokes the route selected by `selectedRoute` (which consults the request
only through its method), or reports no acceptance. -/
theorem runRoutes_eq_selected (routes : List Route) (errH : Option (RErr → Response))
    (tp : String) (req : Request) (idxs : List Nat)
    (h : ∀ i ∈ idxs, i < routes.length) :
    runRoutes routes errH tp req idxs =
      match selectedRoute routes req.method idxs with
      | none => .ok none
      | some route =>
        match invokeRoute route errH tp req with
        | .panicked s => .panicked s
        | .err e => .err e
        | .ok resp => .ok (some resp) := by
  induction idxs with
  | nil => rfl
  | cons idx rest ih =>
    have hlt : idx < routes.length := h idx (List.mem_cons_self idx rest)
    obtain ⟨route, hget⟩ : ∃ r, routes.get? idx = some r :=
      ⟨routes.get ⟨idx, hlt⟩, List.get?_eq_get hlt⟩
    simp only [runRoutes, selectedRoute, hget]
    by_cases hm : route.is_match_method req.method = true
    · simp only [hm, if_true, invokeRoute]
      cases route.process tp req with
      | panicked s => rfl
      | ok resp => rfl
      | err e => cases errH with
        | none => rfl
        | some eh => rfl
    · simp only [Bool.not_eq_true] at hm
      simp only [hm, Bool.false_eq_true, if_false]
      exact ih (fun i hi => h i (List.mem_cons_of_mem idx hi))

/-- Unfolding of `Router.process` once the decoded path and the matcher
result are fixed. -/
theorem process_eq (router : Router) (decode : String → Except RErr String)
    (req : Request) (tp : String) (pidxs ridxs qidxs : List Nat)
    (hdec : decode req.path = .ok tp)
    (hmatch : router.match_regex_set tp = .ok (pidxs, ridxs, qidxs)) :
    router.process decode req =
      match runPreMiddlewares router.pre_middlewares req pidxs with
      | .panicked s => .panicked s
      | .err e => .err e
      | .ok req1 =>
        match runRoutes router.routes router.err_handler tp req1 ridxs with
        | .panicked s => .panicked s
        | .err e => .err e
        | .ok none => .err (RErr.new noRouteMsg)
        | .ok (some resp) => runPostMiddlewares router.post_middlewares resp qidxs := by
  simp only [Router.process, hdec, hmatch]

/-- When the matched route indices split as ineligible indices, then a first
route accepting the method, `Router.process` runs exactly that route
(followed by the matched post middlewares on its response), whatever the
remaining matched indices are. -/
theorem process_first_eligible (router : Router) (decode : String → Except RErr String)
    (req : Request) (tp : String) (pidxs : List Nat) (req1 : Request)
    (l1 : List Nat) (k : Nat) (l2 qidxs : List Nat) (route : Route)
    (hdec : decode req.path = .ok tp)
    (hmatch : router.match_regex_set tp = .ok (pidxs, l1 ++ k :: l2, qidxs))
    (hpre : runPreMiddlewares router.pre_middlewares req pidxs = .ok req1)
    (hl1 : ∀ i ∈ l1, ∃ r, router.routes.get? i = some r
      ∧ r.is_match_method req1.method = false)
    (hk : router.routes.get? k = some route)
    (hm : route.is_match_method req1.method = true) :
    router.process decode req =
      match invokeRoute route router.err_handler tp req1 with
      | .panicked s => .panicked s
      | .err e => .err e
      | .ok resp => runPostMiddlewares router.post_middlewares resp qidxs := by
  rw [process_eq router decode req tp pidxs (l1 ++ k :: l2) qidxs hdec hmatch]
  simp only [hpre]
  rw [runRoutes_skip router.routes router.err_handler tp req1 l1 (k :: l2) hl1]
  rw [runRoutes_hit router.routes router.err_handler tp req1 k l2 route hk hm]
  cases invokeRoute route router.err_handler tp req1 with
  | panicked s => rfl
  | err e => rfl
  | ok resp => rfl

/-- The partition loop, in closed form: each component filters its index
range out of the match list and rebases it by the phase offset. -/
theorem partitionIdxs_eq_filter (a b c : Nat) (ms : List Nat) :
    partitionIdxs a b c ms =
      (ms.filter (fun i => decide (i < a)),
        (ms.filter (fun i => decide (a ≤ i ∧ i < a + b))).map (fun i => i - a),
        (ms.filter (fun i => decide (a + b ≤ i ∧ i < a + b + c))).map
          (fun i => i - a - b)) := by
  induction ms with
  | nil => rfl
  | cons x rest ih =>
    rcases Nat.lt_or_ge x a with h1 | h1
    · have h2 : ¬(a ≤ x ∧ x < a + b) := by omega
      have h3 : ¬(a + b ≤ x ∧ x < a + b + c) := by omega
      simp [partitionIdxs, ih, h1, h2, h3]
    · rcases Nat.lt_or_ge x (a + b) with h2 | h2
      · have h1n : ¬ x < a := by omega
        have hT : a ≤ x ∧ x < a + b := by omega
        have h3 : ¬(a + b ≤ x ∧ x < a + b + c) := by omega
        simp [partitionIdxs, ih, h1n, h2, hT, h3]
      · rcases Nat.lt_or_ge x (a + b + c) with h3 | h3
        · have h1n : ¬ x < a := by omega
          have h2n : ¬ x < a + b := by omega
          have hmid : ¬(a ≤ x ∧ x < a + b) := by omega
          have hT : a + b ≤ x ∧ x < a + b + c := by omega
          simp [partitionIdxs, ih, h1n, h2n, hmid, h3, hT]
        · have h1n : ¬ x < a := by omega
          have h2n : ¬ x < a + b := by omega
          have h3n : ¬ x < a + b + c := by omega
          have hmid : ¬(a ≤ x ∧ x < a + b) := by omega
          have hhigh : ¬(a + b ≤ x ∧ x < a + b + c) := by omega
          simp [partitionIdxs, ih, h1n, h2n, h3n, hmid, hhigh]

/-- The match list reported by the modelled regex set is strictly
ascending. -/
theorem regexSetMatches_sorted (rs : List Regex) (tp : String) :
    (regexSetMatches rs tp).Pairwise (· < ·) :=
  List.Pairwise.filter _ (List.pairwise_lt_range rs.length)

/-- Rebasing a strictly ascending list of indices all at least `a` by
subtracting `a` keeps it strictly ascending. -/
theorem pairwise_map_sub (a : Nat) (l : List Nat) (hl : l.Pairwise (· < ·))
    (hmem : ∀ x ∈ l, a ≤ x) :
    (l.map (fun i => i - a)).Pairwise (· < ·) := by
  rw [List.pairwise_map]
  refine hl.imp_of_mem ?_
  intro x y hx _ hxy
  have := hmem x hx
  omega

/-! Claim theorems. -/

/-- C8: dispatching through a pipeline entry whose handler slot was moved out
during mounting (the consumed state) fails with the dedicated panic carrying
the consumed-router message, and never with a recoverable error value. -/
theorem c8_consumed_entry_panics (m : PreMiddleware) (req : Request)
    (h : m.handler = none) :
    m.process req = .panicked consumedPanicMsg ∧ ∀ e, m.process req ≠ .err e := by
  constructor
  · simp only [PreMiddleware.process, h]
  · intro e
    simp only [PreMiddleware.process, h]
    intro hc
    exact Outcome.noConfusion hc

/-- Witness for C8 at the concrete consumed middleware. -/
theorem c8_witness :
    consumedPre.process reqGetAbout = .panicked consumedPanicMsg
      ∧ ∀ e, consumedPre.process reqGetAbout ≠ .err e :=
  c8_consumed_entry_panics consumedPre reqGetAbout rfl

/-- C9: when percent-decoding of the raw path fails, `process` returns the
decoding error wrapped with the decode context. The equation holds for every
router, whatever pre, route, post and error handlers it carries, so no
handler is invoked and none can influence the outcome. -/
theorem c9_decode_failure_aborts (router : Router)
    (decode : String → Except RErr String) (req : Request) (e : RErr)
    (hdec : decode req.path = .error e) :
    router.process decode req = .err (RErr.wrap decodeCtxMsg e) := by
  simp only [Router.process, hdec]

/-- Witness for C9 at a concrete failing decoder and router. -/
theorem c9_witness :
    routerAbout.process (fun _ => .error (RErr.new "bad escape")) reqGetAbout
      = .err (RErr.wrap decodeCtxMsg (RErr.new "bad escape")) :=
  c9_decode_failure_aborts routerAbout (fun _ => .error (RErr.new "bad escape"))
    reqGetAbout (RErr.new "bad escape") rfl

/-- C7 counterexample: `process` on a dispatcher whose matcher was never
built does not build it and succeed; it panics through the `expect` in
`Router::match_regex_set` with the not-initialized message. -/
theorem c7_counterexample :
    routerUnbuilt.process decodeId reqGetAbout = .panicked regexSetPanicMsg := rfl

/-- C7 (amended): the matcher is installed by the explicit
`Router::init_regex_set` build step (called by the serving layer), which
sets the regex set to the concatenation of the three phase pattern lists;
dispatching against a router whose matcher is unbuilt panics with the
not-initialized message instead of building it at that point. -/
theorem c7_amended_explicit_build (router : Router)
    (decode : String → Except RErr String) (req : Request) (tp : String)
    (h : router.regex_set = none) (hdec : decode req.path = .ok tp) :
    router.init_regex_set.regex_set
        = some (router.pre_middlewares.map PreMiddleware.regex
          ++ router.routes.map Route.regex
          ++ router.post_middlewares.map PostMiddleware.regex)
      ∧ router.process decode req = .panicked regexSetPanicMsg := by
  refine ⟨rfl, ?_⟩
  simp only [Router.process, hdec, Router.match_regex_set, h]

/-- Witness for the amended C7 at the concrete unbuilt router. -/
theorem c7_witness :
    routerUnbuilt.init_regex_set.regex_set
        = some (routerUnbuilt.pre_middlewares.map PreMiddleware.regex
          ++ routerUnbuilt.routes.map Route.regex
          ++ routerUnbuilt.post_middlewares.map PostMiddleware.regex)
      ∧ routerUnbuilt.process decodeId reqGetAbout = .panicked regexSetPanicMsg :=
  c7_amended_explicit_build routerUnbuilt decodeId reqGetAbout "/about" rfl rfl

/-- C5 counterexample: with no route registered at all, the overall result of
`process` is `Error::new` applied to a fixed tips message — the generic
message-carrying error constructor, the very same constructor shape any
generic failure uses — not a dedicated `NoMatchingRoute` error kind. -/
theorem c5_counterexample :
    routerEmpty.process decodeId reqGetAbout = .err (RErr.new noRouteMsg) := rfl

/-- C5 (amended): when no matched route entry accepts the request's method
(including no matched route at all), `process` returns the generic
message-constructed error with the fixed text "No handlers added to handle
non-existent routes. Tips: Please add an '.any' route at the bottom to
handle any routes." — recognizable by callers only through this message, not
through a dedicated error kind. -/
theorem c5_amended_no_route_generic (router : Router)
    (decode : String → Except RErr String) (req : Request) (tp : String)
    (pidxs ridxs qidxs : List Nat) (req1 : Request)
    (hdec : decode req.path = .ok tp)
    (hmatch : router.match_regex_set tp = .ok (pidxs, ridxs, qidxs))
    (hpre : runPreMiddlewares router.pre_middlewares req pidxs = .ok req1)
    (hnone : ∀ i ∈ ridxs, ∃ r, router.routes.get? i = some r
      ∧ r.is_match_method req1.method = false) :
    router.process decode req = .err (RErr.new noRouteMsg) := by
  rw [process_eq router decode req tp pidxs ridxs qidxs hdec hmatch]
  have hrr : runRoutes router.routes router.err_handler tp req1 ridxs = .ok none := by
    have := runRoutes_skip router.routes router.err_handler tp req1 ridxs [] hnone
    simpa using this
  simp only [hpre, hrr]

/-- Witness for the amended C5: a POST request against a GET-only route. -/
theorem c5_witness :
    routerAbout.process decodeId reqPostAbout = .err (RErr.new noRouteMsg) :=
  c5_amended_no_route_generic routerAbout decodeId reqPostAbout "/about"
    [] [0] [] reqPostAbout rfl rfl rfl
    (by
      intro i hi
      simp only [List.mem_singleton] at hi
      subst hi
      exact ⟨routeAbout, rfl, by decide⟩)

/-- C4: if, after the matched pre middlewares before position `k` succeeded,
the k-th matched pre middleware's handler fails with cause `s`, `process`
returns at once the error wrapping that cause with the pre-middleware
context. The conclusion holds for every tail `l2` of later matched pre
indices and for arbitrary route and post lists, so no later pre-phase
handler, no route handler and no post-phase handler runs. -/
theorem c4_pre_error_short_circuits (router : Router)
    (decode : String → Except RErr String) (req : Request) (tp : String)
    (l1 : List Nat) (k : Nat) (l2 ridxs qidxs : List Nat)
    (m : PreMiddleware) (h : Request → Except String Request)
    (reqk : Request) (s : String)
    (hdec : decode req.path = .ok tp)
    (hmatch : router.match_regex_set tp = .ok (l1 ++ k :: l2, ridxs, qidxs))
    (hl1 : runPreMiddlewares router.pre_middlewares req l1 = .ok reqk)
    (hk : router.pre_middlewares.get? k = some m)
    (hh : m.handler = some h)
    (hs : h reqk = .error s) :
    router.process decode req = .err (RErr.wrap preCtxMsg (RErr.new s)) := by
  rw [process_eq router decode req tp (l1 ++ k :: l2) ridxs qidxs hdec hmatch]
  have hfail : runPreMiddlewares router.pre_middlewares req (l1 ++ k :: l2)
      = .err (RErr.wrap preCtxMsg (RErr.new s)) := by
    rw [runPre_append]
    simp only [hl1, runPreMiddlewares, hk, PreMiddleware.process, hh, hs]
  simp only [hfail]

/-- Witness for C4 at a concrete router with a failing pre middleware. -/
theorem c4_witness :
    routerPreFail.process decodeId reqGetAbout
      = .err (RErr.wrap preCtxMsg (RErr.new "pre boom")) :=
  c4_pre_error_short_circuits routerPreFail decodeId reqGetAbout "/about"
    [] 0 [] [0] [] preFail (fun _ => Except.error "pre boom") reqGetAbout "pre boom"
    rfl rfl rfl rfl rfl rfl

/-- C1: matched route indices are scanned in the given ascending order; the
first route whose method set accepts the (pre-phase transformed) request's
method is the one invoked, and the result does not depend on the later
matched indices `l2` — subsequently matched route entries are ignored even
when their pattern and method also match, so at most one route handler
executes per request. -/
theorem c1_first_match_wins (router : Router) (decode : String → Except RErr String)
    (req : Request) (tp : String) (pidxs : List Nat) (req1 : Request)
    (l1 : List Nat) (k : Nat) (l2 qidxs : List Nat) (route : Route)
    (hdec : decode req.path = .ok tp)
    (hmatch : router.match_regex_set tp = .ok (pidxs, l1 ++ k :: l2, qidxs))
    (hpre : runPreMiddlewares router.pre_middlewares req pidxs = .ok req1)
    (hl1 : ∀ i ∈ l1, ∃ r, router.routes.get? i = some r
      ∧ r.is_match_method req1.method = false)
    (hk : router.routes.get? k = some route)
    (hm : route.is_match_method req1.method = true) :
    router.process decode req =
      match invokeRoute route router.err_handler tp req1 with
      | .panicked s => .panicked s
      | .err e => .err e
      | .ok resp => runPostMiddlewares router.post_middlewares resp qidxs :=
  process_first_eligible router decode req tp pidxs req1 l1 k l2 qidxs route
    hdec hmatch hpre hl1 hk hm

/-- Witness for C1: the selected route is invoked even though a second
matching GET route for the same pattern follows it among the matches. -/
theorem c1_witness :
    ({ pre_middlewares := [], routes := [routeAbout, routeAbout],
       post_middlewares := [], err_handler := none,
       regex_set := some [aboutRegex, aboutRegex] } : Router).process decodeId reqGetAbout
      = match invokeRoute routeAbout none "/about" reqGetAbout with
        | .panicked s => .panicked s
        | .err e => .err e
        | .ok resp => runPostMiddlewares [] resp [] :=
  c1_first_match_wins
    { pre_middlewares := [], routes := [routeAbout, routeAbout],
      post_middlewares := [], err_handler := none,
      regex_set := some [aboutRegex, aboutRegex] }
    decodeId reqGetAbout "/about" [] reqGetAbout [] 0 [1] [] routeAbout
    rfl rfl rfl (by simp) rfl (by decide)

/-- C3: when the selected route handler fails with `e`, then with an error
handler installed the error handler is invoked on the route-context-wrapped
error and its response becomes the route response on which the matched post
middlewares still run (the original error is not returned to the caller);
with no error handler installed, `process` returns that wrapped error to the
caller and no post-phase handler runs. -/
theorem c3_error_handler_recovery (router : Router)
    (decode : String → Except RErr String) (req : Request) (tp : String)
    (pidxs : List Nat) (req1 : Request) (l1 : List Nat) (k : Nat)
    (l2 qidxs : List Nat) (route : Route) (e : RErr)
    (hdec : decode req.path = .ok tp)
    (hmatch : router.match_regex_set tp = .ok (pidxs, l1 ++ k :: l2, qidxs))
    (hpre : runPreMiddlewares router.pre_middlewares req pidxs = .ok req1)
    (hl1 : ∀ i ∈ l1, ∃ r, router.routes.get? i = some r
      ∧ r.is_match_method req1.method = false)
    (hk : router.routes.get? k = some route)
    (hm : route.is_match_method req1.method = true)
    (herr : route.process tp req1 = .err e) :
    (∀ eh, router.err_handler = some eh →
        router.process decode req
          = runPostMiddlewares router.post_middlewares
              (eh (RErr.wrap routeCtxMsg e)) qidxs)
      ∧ (router.err_handler = none →
          router.process decode req = .err (RErr.wrap routeCtxMsg e)) := by
  have hrun := process_first_eligible router decode req tp pidxs req1 l1 k l2 qidxs
    route hdec hmatch hpre hl1 hk hm
  constructor
  · intro eh heh
    rw [hrun]
    simp only [invokeRoute, herr, heh]
  · intro hnone
    rw [hrun]
    simp only [invokeRoute, herr, hnone]

/-- Witness for C3 at a concrete failing route with an error handler set. -/
theorem c3_witness :
    (∀ eh, routerRouteFail.err_handler = some eh →
        routerRouteFail.process decodeId reqGetAbout
          = runPostMiddlewares []
              (eh (RErr.wrap routeCtxMsg (RErr.new "route boom"))) [])
      ∧ (routerRouteFail.err_handler = none →
          routerRouteFail.process decodeId reqGetAbout
            = .err (RErr.wrap routeCtxMsg (RErr.new "route boom"))) :=
  c3_error_handler_recovery routerRouteFail decodeId reqGetAbout "/about"
    [] reqGetAbout [] 0 [] [] routeFail (RErr.new "route boom")
    rfl rfl rfl (by simp) rfl (by decide) rfl

/-- C10: the matched index sets are computed, before any pre-phase handler
runs, from `tp` — the percent-decode of the ORIGINAL request's path — and the
route phase consumes the transformed request only through `selectedRoute`
applied to its method: the first matched route accepting the transformed
method is selected and captures parameters from `tp`. The transformed
request's path appears nowhere in the selection or in the capture path, so a
pre-phase handler that rewrites the URI changes neither; the method check
uses the transformed method. -/
theorem c10_match_fixed_before_pre (router : Router)
    (decode : String → Except RErr String) (req : Request) (tp : String)
    (pidxs ridxs qidxs : List Nat) (req1 : Request)
    (hdec : decode req.path = .ok tp)
    (hmatch : router.match_regex_set tp = .ok (pidxs, ridxs, qidxs))
    (hpre : runPreMiddlewares router.pre_middlewares req pidxs = .ok req1)
    (hb : ∀ i ∈ ridxs, i < router.routes.length) :
    router.process decode req =
      match selectedRoute router.routes req1.method ridxs with
      | none => .err (RErr.new noRouteMsg)
      | some route =>
        match invokeRoute route router.err_handler tp req1 with
        | .panicked s => .panicked s
        | .err e => .err e
        | .ok resp => runPostMiddlewares router.post_middlewares resp qidxs := by
  rw [process_eq router decode req tp pidxs ridxs qidxs hdec hmatch]
  simp only [hpre]
  rw [runRoutes_eq_selected router.routes router.err_handler tp req1 ridxs hb]
  cases selectedRoute router.routes req1.method ridxs with
  | none => rfl
  | some route =>
    simp only []
    cases invokeRoute route router.err_handler tp req1 with
    | panicked s => rfl
    | err e => rfl
    | ok resp => rfl

/-- Witness for C10: a pre middleware rewrites the path to `/elsewhere`, yet
the route phase still selects against the matches of the original `/about`
and captures from `/about`. -/
theorem c10_witness :
    routerRewrite.process decodeId reqGetAbout =
      match selectedRoute routerRewrite.routes reqRewritten.method [0] with
      | none => .err (RErr.new noRouteMsg)
      | some route =>
        match invokeRoute route routerRewrite.err_handler "/about" reqRewritten with
        | .panicked s => .panicked s
        | .err e => .err e
        | .ok resp => runPostMiddlewares routerRewrite.post_middlewares resp [] :=
  c10_match_fixed_before_pre routerRewrite decodeId reqGetAbout "/about"
    [0] [0] [] reqRewritten rfl rfl rfl (by decide)

/-- Rebasing a strictly ascending list of indices all at least `a + b` by
subtracting `a` and then `b` keeps it strictly ascending. -/
theorem pairwise_map_sub_sub (a b : Nat) (l : List Nat) (hl : l.Pairwise (· < ·))
    (hmem : ∀ x ∈ l, a + b ≤ x) :
    (l.map (fun i => i - a - b)).Pairwise (· < ·) := by
  rw [List.pairwise_map]
  refine hl.imp_of_mem ?_
  intro x y hx _ hxy
  have := hmem x hx
  omega

/-- C2: the matcher output is partitioned by index range — global indices
below the pre count stay pre-phase local indices, indices in the route range
are rebased by the pre count, indices in the post range are rebased by pre
and route counts — and each of the three resulting local index lists is
strictly ascending, i.e. keeps the original registration order. -/
theorem c2_partition_ranges_order (router : Router) (rs : List Regex) (tp : String)
    (h : router.regex_set = some rs) :
    router.match_regex_set tp
        = .ok ((regexSetMatches rs tp).filter
            (fun i => decide (i < router.pre_middlewares.length)),
          ((regexSetMatches rs tp).filter (fun i =>
              decide (router.pre_middlewares.length ≤ i
                ∧ i < router.pre_middlewares.length + router.routes.length))).map
            (fun i => i - router.pre_middlewares.length),
          ((regexSetMatches rs tp).filter (fun i =>
              decide (router.pre_middlewares.length + router.routes.length ≤ i
                ∧ i < router.pre_middlewares.length + router.routes.length
                    + router.post_middlewares.length))).map
            (fun i => i - router.pre_middlewares.length - router.routes.length))
      ∧ ((regexSetMatches rs tp).filter
          (fun i => decide (i < router.pre_middlewares.length))).Pairwise (· < ·)
      ∧ (((regexSetMatches rs tp).filter (fun i =>
            decide (router.pre_middlewares.length ≤ i
              ∧ i < router.pre_middlewares.length + router.routes.length))).map
          (fun i => i - router.pre_middlewares.length)).Pairwise (· < ·)
      ∧ (((regexSetMatches rs tp).filter (fun i =>
            decide (router.pre_middlewares.length + router.routes.length ≤ i
              ∧ i < router.pre_middlewares.length + router.routes.length
                  + router.post_middlewares.length))).map
          (fun i => i - router.pre_middlewares.length - router.routes.length)).Pairwise
          (· < ·) := by
  refine ⟨?_, ?_, ?_, ?_⟩
  · simp only [Router.match_regex_set, h, partitionIdxs_eq_filter]
  · exact List.Pairwise.filter _ (regexSetMatches_sorted rs tp)
  · refine pairwise_map_sub _ _
      (List.Pairwise.filter _ (regexSetMatches_sorted rs tp)) ?_
    intro x hx
    have hp := (List.mem_filter.mp hx).2
    simp only [decide_eq_true_eq] at hp
    exact hp.1
  · refine pairwise_map_sub_sub _ _ _
      (List.Pairwise.filter _ (regexSetMatches_sorted rs tp)) ?_
    intro x hx
    have hp := (List.mem_filter.mp hx).2
    simp only [decide_eq_true_eq] at hp
    exact hp.1

/-- Witness for C2 at a concrete two-pattern router. -/
theorem c2_witness :
    routerPreFail.match_regex_set "/about"
        = .ok ((regexSetMatches [aboutRegex, aboutRegex] "/about").filter
            (fun i => decide (i < routerPreFail.pre_middlewares.length)),
          ((regexSetMatches [aboutRegex, aboutRegex] "/about").filter (fun i =>
              decide (routerPreFail.pre_middlewares.length ≤ i
                ∧ i < routerPreFail.pre_middlewares.length
                    + routerPreFail.routes.length))).map
            (fun i => i - routerPreFail.pre_middlewares.length),
          ((regexSetMatches [aboutRegex, aboutRegex] "/about").filter (fun i =>
              decide (routerPreFail.pre_middlewares.length
                  + routerPreFail.routes.length ≤ i
                ∧ i < routerPreFail.pre_middlewares.length
                    + routerPreFail.routes.length
                    + routerPreFail.post_middlewares.length))).map
            (fun i => i - routerPreFail.pre_middlewares.length
              - routerPreFail.routes.length))
      ∧ ((regexSetMatches [aboutRegex, aboutRegex] "/about").filter
          (fun i => decide (i < routerPreFail.pre_middlewares.length))).Pairwise
          (· < ·)
      ∧ (((regexSetMatches [aboutRegex, aboutRegex] "/about").filter (fun i =>
            decide (routerPreFail.pre_middlewares.length ≤ i
              ∧ i < routerPreFail.pre_middlewares.length
                  + routerPreFail.routes.length))).map
          (fun i => i - routerPreFail.pre_middlewares.length)).Pairwise (· < ·)
      ∧ (((regexSetMatches [aboutRegex, aboutRegex] "/about").filter (fun i =>
            decide (routerPreFail.pre_middlewares.length
                + routerPreFail.routes.length ≤ i
              ∧ i < routerPreFail.pre_middlewares.length
                  + routerPreFail.routes.length
                  + routerPreFail.post_middlewares.length))).map
          (fun i => i - routerPreFail.pre_middlewares.length
            - routerPreFail.routes.length)).Pairwise (· < ·) :=
  c2_partition_ranges_order routerPreFail [aboutRegex, aboutRegex] "/about" rfl

/-- Membership in the modelled batch match: index `i` is reported exactly
when the i-th member regex individually matches the text. -/
theorem mem_regexSetMatches (rs : List Regex) (tp : String) (i : Nat) :
    i ∈ regexSetMatches rs tp ↔ ∃ r, rs.get? i = some r ∧ r tp = true := by
  simp only [regexSetMatches, List.mem_filter, List.mem_range]
  constructor
  · rintro ⟨hlt, hp⟩
    exact ⟨rs.get ⟨i, hlt⟩, List.get?_eq_get hlt, by
      rw [List.getD_eq_get rs falseRegex hlt] at hp
      exact hp⟩
  · rintro ⟨r, hget, hr⟩
    obtain ⟨hlt, hgt⟩ := List.get?_eq_some.mp hget
    refine ⟨hlt, ?_⟩
    rw [List.getD_eq_get rs falseRegex hlt, hgt]
    exact hr

/-- C6: the single batch query over the concatenated pattern set (all
pre-middleware patterns, then all route patterns, then all post-middleware
patterns) reports global index `i` exactly when entry i's own compiled regex
individually matches the full decoded path; on the pre-middleware segment
this individual test is that entry's `is_match` from
`src/middleware/pre.rs`. -/
theorem c6_batch_eq_individual (pres : List PreMiddleware) (routes : List Route)
    (posts : List PostMiddleware) (tp : String) (i : Nat) :
    (i ∈ regexSetMatches (pres.map PreMiddleware.regex ++ routes.map Route.regex
        ++ posts.map PostMiddleware.regex) tp
      ↔ ∃ r, (pres.map PreMiddleware.regex ++ routes.map Route.regex
          ++ posts.map PostMiddleware.regex).get? i = some r ∧ r tp = true)
    ∧ (∀ m, pres.get? i = some m →
        (i ∈ regexSetMatches (pres.map PreMiddleware.regex ++ routes.map Route.regex
            ++ posts.map PostMiddleware.regex) tp ↔ m.is_match tp = true)) := by
  constructor
  · exact mem_regexSetMatches _ tp i
  · intro m hm
    obtain ⟨hlt, _⟩ := List.get?_eq_some.mp hm
    have hlt1 : i < (pres.map PreMiddleware.regex).length := by
      simpa using hlt
    have hlt2 : i < (pres.map PreMiddleware.regex ++ routes.map Route.regex).length := by
      simp only [List.length_append]
      omega
    have hget : (pres.map PreMiddleware.regex ++ routes.map Route.regex
        ++ posts.map PostMiddleware.regex).get? i = some m.regex := by
      rw [List.get?_append hlt2, List.get?_append hlt1, List.get?_map, hm]
      rfl
    rw [mem_regexSetMatches]
    constructor
    · rintro ⟨r, hr, hmatch⟩
      rw [hget] at hr
      cases hr
      exact hmatch
    · intro hmatch
      exact ⟨m.regex, hget, hmatch⟩

/-- Witness for C6 on a concrete one-entry pre segment. -/
theorem c6_witness :
    0 ∈ regexSetMatches ([preRewrite].map PreMiddleware.regex
        ++ ([] : List Route).map Route.regex
        ++ ([] : List PostMiddleware).map PostMiddleware.regex) "/about"
      ↔ preRewrite.is_match "/about" = true :=
  (c6_batch_eq_individual [preRewrite] [] [] "/about" 0).2 preRewrite rfl

end Routerify
